import Mathlib

set_option maxRecDepth 8000

/-!
Verification development for the oorja bill-extraction backend.

The embedded code is src/services/pdfService.js — the version that calls the
`responses.create` API (the one carrying the N/A pricing guard, the o3-mini
default model and six price-table entries) — together with the HTTP handler
`processPdf` from the controller file. Pure JavaScript computations become
Lean functions; the effectful pipeline (file read, PDF text extraction,
remote API call, scratch-file removal) is embedded by passing the outcome of
each effect in explicitly (`ModelEnv`) and threading the scratch-file state
(`FsState`) through the function.
-/

/-- JSON values as produced by `JSON.parse`; numbers are modelled as exact
rationals (every numeric literal occurring in the claims is exactly
representable). -/
inductive JVal where
  | jnull
  | jbool (b : Bool)
  | jnum (q : ℚ)
  | jstr (s : String)
  | jarr (elems : List JVal)
  | jobj (fields : List (String × JVal))

/-- Backtick character (code 96). -/
def btick : Char := Char.ofNat 96

/-- Left curly brace character (code 123). -/
def lcurl : Char := Char.ofNat 123

/-- Right curly brace character (code 125). -/
def rcurl : Char := Char.ofNat 125

/-- Whitespace accepted between JSON tokens (RFC 8259: space, tab, LF, CR). -/
def isJsonWs (c : Char) : Bool :=
  c = ' ' || c = '\t' || c = '\n' || c = '\r'

/-- Drop leading JSON whitespace. -/
def skipWsL (cs : List Char) : List Char := cs.dropWhile isJsonWs

/-- Match an exact literal tail (used for `true`, `false`, `null`). -/
def expectLit (lit : List Char) (cs : List Char) (v : JVal) :
    Option (JVal × List Char) :=
  if cs.take lit.length = lit then some (v, cs.drop lit.length) else none

/-- Hexadecimal digit value. -/
def hexVal (c : Char) : Option Nat :=
  if c.isDigit then some (c.toNat - 48)
  else if 'a' ≤ c && c ≤ 'f' then some (c.toNat - 87)
  else if 'A' ≤ c && c ≤ 'F' then some (c.toNat - 70)
  else none

/-- Body of a JSON string after the opening quote, with escape handling;
returns the decoded string and the remainder after the closing quote. -/
def parseStrBody : Nat → List Char → List Char → Option (String × List Char)
  | 0, _, _ => none
  | _ + 1, [], _ => none
  | fuel + 1, c :: rest, acc =>
    if c = '\"' then some (String.mk acc.reverse, rest)
    else if c = '\\' then
      match rest with
      | [] => none
      | e :: rest2 =>
        if e = '\"' then parseStrBody fuel rest2 ('\"' :: acc)
        else if e = '\\' then parseStrBody fuel rest2 ('\\' :: acc)
        else if e = '/' then parseStrBody fuel rest2 ('/' :: acc)
        else if e = 'b' then parseStrBody fuel rest2 (Char.ofNat 8 :: acc)
        else if e = 'f' then parseStrBody fuel rest2 (Char.ofNat 12 :: acc)
        else if e = 'n' then parseStrBody fuel rest2 ('\n' :: acc)
        else if e = 'r' then parseStrBody fuel rest2 ('\r' :: acc)
        else if e = 't' then parseStrBody fuel rest2 ('\t' :: acc)
        else if e = 'u' then
          match rest2 with
          | h1 :: h2 :: h3 :: h4 :: rest6 =>
            match hexVal h1, hexVal h2, hexVal h3, hexVal h4 with
            | some a, some b, some c2, some d =>
              parseStrBody fuel rest6 (Char.ofNat (((a * 16 + b) * 16 + c2) * 16 + d) :: acc)
            | _, _, _, _ => none
          | _ => none
        else none
    else if c.toNat < 32 then none
    else parseStrBody fuel rest (c :: acc)

/-- Numeric value of a list of decimal digits. -/
def digitsToNat (ds : List Char) : Nat :=
  ds.foldl (fun acc c => acc * 10 + (c.toNat - 48)) 0

/-- A JSON number (integer part, optional fraction, optional exponent),
rejecting the forms JSON rejects: a lone minus, a leading zero, a bare dot,
an empty fraction or exponent. -/
def parseNumFrom (cs : List Char) : Option (JVal × List Char) :=
  let (neg, cs1) : Bool × List Char :=
    match cs with
    | c :: rest => if c = '-' then (true, rest) else (false, cs)
    | [] => (false, [])
  let (ds, cs2) := cs1.span (fun c => c.isDigit)
  if ds.isEmpty then none
  else if ds.length > 1 && ds.headD '0' = '0' then none
  else
    let intPart : ℚ := (digitsToNat ds : ℚ)
    let fracStep : Option (ℚ × List Char) :=
      match cs2 with
      | c :: rest =>
        if c = '.' then
          let (fs, cs3) := rest.span (fun d => d.isDigit)
          if fs.isEmpty then none
          else some (intPart + (digitsToNat fs : ℚ) / (10 : ℚ) ^ fs.length, cs3)
        else some (intPart, cs2)
      | [] => some (intPart, cs2)
    match fracStep with
    | none => none
    | some (base, cs4) =>
      let signedBase : ℚ := if neg then -base else base
      match cs4 with
      | c :: rest =>
        if c = 'e' || c = 'E' then
          let (eneg, rest2) : Bool × List Char :=
            match rest with
            | d :: r2 =>
              if d = '+' then (false, r2)
              else if d = '-' then (true, r2)
              else (false, rest)
            | [] => (false, rest)
          let (es, cs5) := rest2.span (fun d => d.isDigit)
          if es.isEmpty then none
          else
            let e : Int := if eneg then -(digitsToNat es : Int) else (digitsToNat es : Int)
            some (JVal.jnum (signedBase * (10 : ℚ) ^ e), cs5)
        else some (JVal.jnum signedBase, cs4)
      | [] => some (JVal.jnum signedBase, cs4)

mutual

/-- One JSON value, returning the unconsumed remainder. `fuel` bounds the
recursion; callers supply more fuel than the input length needs. -/
def parseVal : Nat → List Char → Option (JVal × List Char)
  | 0, _ => none
  | fuel + 1, cs =>
    match skipWsL cs with
    | [] => none
    | c :: rest =>
      if c = '\"' then
        match parseStrBody (rest.length + 1) rest [] with
        | some (s, r) => some (JVal.jstr s, r)
        | none => none
      else if c = 't' then expectLit ['r', 'u', 'e'] rest (JVal.jbool true)
      else if c = 'f' then expectLit ['a', 'l', 's', 'e'] rest (JVal.jbool false)
      else if c = 'n' then expectLit ['u', 'l', 'l'] rest JVal.jnull
      else if c = '[' then
        match skipWsL rest with
        | d :: r2 => if d = ']' then some (JVal.jarr [], r2) else parseArrRest fuel (d :: r2) []
        | [] => none
      else if c = lcurl then
        match skipWsL rest with
        | d :: r2 => if d = rcurl then some (JVal.jobj [], r2) else parseObjRest fuel (d :: r2) []
        | [] => none
      else parseNumFrom (c :: rest)

/-- Elements of a non-empty JSON array after the opening bracket. -/
def parseArrRest : Nat → List Char → List JVal → Option (JVal × List Char)
  | 0, _, _ => none
  | fuel + 1, cs, acc =>
    match parseVal fuel cs with
    | none => none
    | some (v, cs1) =>
      match skipWsL cs1 with
      | c :: cs2 =>
        if c = ',' then parseArrRest fuel cs2 (v :: acc)
        else if c = ']' then some (JVal.jarr (v :: acc).reverse, cs2)
        else none
      | [] => none

/-- Members of a non-empty JSON object after the opening brace. -/
def parseObjRest : Nat → List Char → List (String × JVal) → Option (JVal × List Char)
  | 0, _, _ => none
  | fuel + 1, cs, acc =>
    match skipWsL cs with
    | c :: rest =>
      if c = '\"' then
        match parseStrBody (rest.length + 1) rest [] with
        | some (k, cs1) =>
          match skipWsL cs1 with
          | d :: cs2 =>
            if d = ':' then
              match parseVal fuel cs2 with
              | some (v, cs3) =>
                match skipWsL cs3 with
                | e :: cs4 =>
                  if e = ',' then parseObjRest fuel cs4 ((k, v) :: acc)
                  else if e = rcurl then some (JVal.jobj ((k, v) :: acc).reverse, cs4)
                  else none
                | [] => none
              | none => none
            else none
          | [] => none
        | none => none
      else none
    | [] => none

end

/-- `JSON.parse`: the whole text must be one JSON value surrounded only by
whitespace, otherwise the parse fails (models the thrown SyntaxError as
`none`). -/
def jsonParse (s : String) : Option JVal :=
  match parseVal (2 * s.length + 2) s.data with
  | some (v, rest) => if skipWsL rest = [] then some v else none
  | none => none

/-- Whitespace as matched by the JavaScript regex class `\s` (the subset the
service's replies can contain: space, tab, LF, CR, VT, FF, NBSP). -/
def isRegexWs (c : Char) : Bool :=
  c = ' ' || c = '\t' || c = '\n' || c = '\r' ||
  c = Char.ofNat 11 || c = Char.ofNat 12 || c = Char.ofNat 160

/-- Strip trailing regex whitespace. -/
def dropTrailingWs (cs : List Char) : List Char :=
  (cs.reverse.dropWhile isRegexWs).reverse

/-- Index of the first occurrence of three consecutive backticks. -/
def findTripleTick : List Char → Option Nat
  | a :: b :: c :: rest =>
    if a = btick && b = btick && c = btick then some 0
    else (findTripleTick (b :: c :: rest)).map (fun n => n + 1)
  | _ => none

/-- Attempt the fence regex at the head of `cs`. This is the match semantics
of the pattern: three backticks, greedy optional tag `json`, greedy run of
whitespace, lazy body, greedy run of whitespace, three backticks. The lazy
body makes the match end at the first closing fence; the trailing greedy
whitespace run strips whitespace off the end of the capture. Returns
(whole match, capture group 1). -/
def tryFenceAt (cs : List Char) : Option (List Char × List Char) :=
  match cs with
  | a :: b :: c :: rest =>
    if a = btick && b = btick && c = btick then
      let tagged := rest.take 4 = ['j', 's', 'o', 'n']
      let tag := if tagged then rest.take 4 else []
      let afterTag := if tagged then rest.drop 4 else rest
      let ws1 := afterTag.takeWhile isRegexWs
      let body0 := afterTag.dropWhile isRegexWs
      match findTripleTick body0 with
      | none => none
      | some k =>
        let capture := dropTrailingWs (body0.take k)
        let whole := a :: b :: c :: (tag ++ ws1 ++ body0.take (k + 3))
        some (whole, capture)
    else none
  | _ => none

/-- Leftmost match of the fenced-code-block regex: the engine tries each
start position in order. -/
def fenceSearch : List Char → Option (List Char × List Char)
  | [] => none
  | c :: rest =>
    match tryFenceAt (c :: rest) with
    | some r => some r
    | none => fenceSearch rest

/-- Match of the brace-span regex: an opening brace, a greedy run of any
characters, a closing brace — i.e. the span from the first left brace to
the last right brace, when the latter comes after the former. -/
def braceSearch (cs : List Char) : Option (List Char) :=
  match cs.findIdx? (fun c => c = lcurl) with
  | none => none
  | some i =>
    match cs.reverse.findIdx? (fun c => c = rcurl) with
    | none => none
    | some jrev =>
      let j := cs.length - 1 - jrev
      if i < j then some ((cs.drop i).take (j - i + 1)) else none

/-- Result of `content.match(...)`: the whole match and, when the pattern
has one, the first capture group. -/
structure ReMatch where
  whole : String
  group1 : Option String

/-- The service's `jsonMatch`: the fence regex first, the brace-span regex
when no fence matches. -/
def jsonMatchOf (content : String) : Option ReMatch :=
  match fenceSearch content.data with
  | some (w, cap) => some ⟨String.mk w, some (String.mk cap)⟩
  | none =>
    match braceSearch content.data with
    | some w => some ⟨String.mk w, none⟩
    | none => none

/-- The service's `jsonMatch[1] || jsonMatch[0]`: the capture group when it
is present and non-empty (an empty string is falsy), otherwise the whole
match. -/
def matchedJsonString (m : ReMatch) : String :=
  match m.group1 with
  | some g => if g = "" then m.whole else g
  | none => m.whole

/-- Parse error message of the single-model pipeline. -/
def singleParseMsg : String := "Failed to parse bill data from OpenAI response"

/-- Parse error message of the multi-model pipeline, naming the model. -/
def modelParseMsg (model : String) : String :=
  "Failed to parse bill data from " ++ model ++ " response"

/-- Response reconciliation: direct `JSON.parse` of the reply; on failure the
fence regex, then the brace-span regex, and `JSON.parse` of what matched;
every failure of the fallback stage (no match, or a second parse failure)
raises the same parse error. -/
def reconcile (parseFailMsg : String) (content : String) : Except String JVal :=
  match jsonParse content with
  | some v => Except.ok v
  | none =>
    match jsonMatchOf content with
    | none => Except.error parseFailMsg
    | some m =>
      match jsonParse (matchedJsonString m) with
      | some v => Except.ok v
      | none => Except.error parseFailMsg

/-- The token-usage fields a `responses.create` / chat-completions usage
object can carry; `none` models an absent field. -/
structure UsageRaw where
  prompt_tokens : Option Nat
  input_tokens : Option Nat
  completion_tokens : Option Nat
  output_tokens : Option Nat
  total_tokens : Option Nat

/-- The JavaScript value passed as the `usage` argument of `calculatePrice`:
the code guards against it being anything other than an object. -/
inductive JsUsage where
  | undef
  | null
  | numv (q : ℚ)
  | strv (s : String)
  | boolv (b : Bool)
  | arrv
  | objv (u : UsageRaw)

/-- JavaScript truthiness of a usage value (`!usage` in the guard):
undefined, null, 0, the empty string and false are falsy. -/
def jsTruthyUsage : JsUsage → Bool
  | JsUsage.undef => false
  | JsUsage.null => false
  | JsUsage.numv q => !(q == 0)
  | JsUsage.strv s => !(s == "")
  | JsUsage.boolv b => b
  | JsUsage.arrv => true
  | JsUsage.objv _ => true

/-- JavaScript `typeof usage === 'object'`: true for null, arrays and
objects. -/
def typeofIsObj : JsUsage → Bool
  | JsUsage.null => true
  | JsUsage.arrv => true
  | JsUsage.objv _ => true
  | _ => false

/-- Token fields read off the usage value after the guard passed: an array
has none of the named fields, so each read is undefined. -/
def usageFieldsOf : JsUsage → UsageRaw
  | JsUsage.objv u => u
  | _ => ⟨none, none, none, none, none⟩

/-- JavaScript `a || d` on an optionally-present numeric field: an absent
field is undefined (falsy) and a present 0 is falsy, both fall through. -/
def jsOrNum : Option Nat → Nat → Nat
  | some n, d => if n = 0 then d else n
  | none, d => d

/-- Per-million-token rates of one price-table entry. -/
structure ModelRates where
  input : ℚ
  cachedInput : ℚ
  output : ℚ

/-- The price table of `calculatePrice` (dollars per million tokens). -/
def prices : List (String × ModelRates) :=
  [("gpt-4.5-preview", ⟨75, 75 / 2, 150⟩),
   ("gpt-4o", ⟨5 / 2, 5 / 4, 10⟩),
   ("gpt-4o-mini", ⟨3 / 20, 3 / 40, 3 / 5⟩),
   ("o3-mini", ⟨11 / 10, 11 / 20, 22 / 5⟩),
   ("o1", ⟨15, 15 / 2, 60⟩),
   ("o1-pro", ⟨150, 150, 600⟩)]

/-- The property names a JavaScript object literal inherits from
Object.prototype in Node: reading `prices[k]` for one of these yields the
inherited member (a function, or the prototype object itself for
`__proto__`) instead of undefined. -/
def objectProtoKeys : List String :=
  ["constructor", "hasOwnProperty", "isPrototypeOf", "propertyIsEnumerable",
   "toLocaleString", "toString", "valueOf", "__proto__", "__defineGetter__",
   "__defineSetter__", "__lookupGetter__", "__lookupSetter__"]

/-- What the JavaScript property read `prices[key]` can yield: an own entry
of the table (a rates record), an inherited Object.prototype member (truthy
but not a rates record), or undefined. -/
inductive JsPropValue where
  | ratesVal (r : ModelRates)
  | protoVal
  | undefVal

/-- `prices[model]` with JavaScript property-access semantics: the own
entry when the key is in the table, the inherited Object.prototype member
for the prototype's property names, undefined otherwise. -/
def pricesGet (model : String) : JsPropValue :=
  match prices.lookup model with
  | some r => JsPropValue.ratesVal r
  | none =>
    if objectProtoKeys.contains model then JsPropValue.protoVal
    else JsPropValue.undefVal

/-- `prices[model] || prices['gpt-4o']`: both an own entry and an inherited
prototype member are truthy, so only an undefined read falls back to the
gpt-4o entry. -/
def modelPricesOf (model : String) : JsPropValue :=
  match pricesGet model with
  | JsPropValue.undefVal => pricesGet "gpt-4o"
  | v => v

/-- Zero-padded decimal rendering of `n` to `width` digits. -/
def padZeros (width : Nat) (n : Nat) : String :=
  let s := toString n
  String.mk (List.replicate (width - s.length) '0') ++ s

/-- `q` scaled by `10^d` and rounded to the nearest integer, larger integer
on ties — the rounding `Number.prototype.toFixed` applies; our arguments
are always nonnegative. -/
def ratRoundScaled (q : ℚ) (d : Nat) : Nat :=
  (Int.floor (q * (10 : ℚ) ^ d + 1 / 2)).toNat

/-- `Number.prototype.toFixed(d)` for the nonnegative exact values the
pricing code produces. -/
def toFixed (q : ℚ) (d : Nat) : String :=
  let n := ratRoundScaled q d
  toString (n / 10 ^ d) ++ "." ++ padZeros d (n % 10 ^ d)

/-- The three rate strings of a pricing result. -/
structure RateStrings where
  inputRate : String
  cachedInputRate : String
  outputRate : String

/-- The three cost strings of a pricing result. -/
structure CostStrings where
  inputCost : String
  outputCost : String
  totalCost : String

/-- Return value of `calculatePrice`. -/
structure Pricing where
  model : String
  rates : RateStrings
  costs : CostStrings

/-- The pricing result the guard branch returns for a malformed usage
value: every rate and cost field is the string N/A. -/
def naPricing (model : String) : Pricing :=
  ⟨model, ⟨"N/A", "N/A", "N/A"⟩, ⟨"N/A", "N/A", "N/A"⟩⟩

/-- `calculatePrice(model, usage)`: guard against a falsy or non-object
usage (returning the all-N/A result before the table is ever read), read
the token counts under both API naming conventions, resolve
`prices[model] || prices['gpt-4o']` with JavaScript property-access
semantics, and format rates and costs. When the resolved value is not a
rates record — an inherited Object.prototype member, whose truthiness
skipped the fallback — `modelPrices.input` is undefined and
`modelPrices.input.toFixed(2)` throws a TypeError, modelled as
`Except.error`. -/
def calculatePrice (model : String) (usage : JsUsage) : Except String Pricing :=
  if !(jsTruthyUsage usage && typeofIsObj usage) then Except.ok (naPricing model)
  else
    let u := usageFieldsOf usage
    let promptTokens := jsOrNum u.prompt_tokens (jsOrNum u.input_tokens 0)
    let completionTokens := jsOrNum u.completion_tokens (jsOrNum u.output_tokens 0)
    match modelPricesOf model with
    | JsPropValue.ratesVal modelPrices =>
      let inputPrice : ℚ := (promptTokens : ℚ) / 1000000 * modelPrices.input
      let outputPrice : ℚ := (completionTokens : ℚ) / 1000000 * modelPrices.output
      Except.ok
        { model := model
          rates := {
            inputRate := "$" ++ toFixed modelPrices.input 2 ++ " per million tokens"
            cachedInputRate := "$" ++ toFixed modelPrices.cachedInput 2 ++ " per million tokens"
            outputRate := "$" ++ toFixed modelPrices.output 2 ++ " per million tokens" }
          costs := {
            inputCost := "$" ++ toFixed inputPrice 6
            outputCost := "$" ++ toFixed outputPrice 6
            totalCost := "$" ++ toFixed (inputPrice + outputPrice) 6 } }
    | _ =>
      Except.error "TypeError: modelPrices.input is undefined"

/-- The normalized usage record both pipelines place in their results. -/
structure NormUsage where
  prompt_tokens : Nat
  completion_tokens : Nat
  total_tokens : Nat

/-- The usage normalization both pipelines perform on the API's usage
object: prompt from prompt_tokens or input_tokens, completion from
completion_tokens or output_tokens, total from total_tokens or the sum of
the two normalized counts. -/
def normUsage (u : UsageRaw) : NormUsage :=
  let p := jsOrNum u.prompt_tokens (jsOrNum u.input_tokens 0)
  let c := jsOrNum u.completion_tokens (jsOrNum u.output_tokens 0)
  { prompt_tokens := p, completion_tokens := c,
    total_tokens := jsOrNum u.total_tokens (p + c) }

/-- What the remote API returned for one request: the reply text and the
usage counters. (The pipeline reads `response.output_text` and
`response.usage`; usage objects whose member access would itself throw are
outside the modelled input space.) -/
structure ApiResponse where
  output_text : String
  usage : UsageRaw

/-- Outcomes of the pipeline's effects, passed in explicitly: the combined
file-read-plus-PDF-text-extraction step, and the remote API call per
model. -/
structure ModelEnv where
  readParse : Except String String
  api : String → Except String ApiResponse

/-- Scratch-file state threaded through a request: whether the uploaded
file still exists, and whether an `fs.remove` call on it fails. -/
structure FsState where
  fileExists : Bool
  removeFails : Bool

/-- `await fs.remove(path)` with no catch: deletes the file, or throws. -/
def fsRemoveAwait (s : FsState) : Except String FsState :=
  if s.removeFails then Except.error "fs.remove failed"
  else Except.ok { s with fileExists := false }

/-- `await fs.remove(path).catch(() => {\x7d)`: deletes the file, its own
failure swallowed. -/
def fsRemoveSwallow (s : FsState) : FsState :=
  if s.removeFails then s else { s with fileExists := false }

/-- JavaScript truthiness of a parsed JSON value (`!extractedData`). -/
def jvTruthy : JVal → Bool
  | JVal.jnull => false
  | JVal.jbool b => b
  | JVal.jnum q => !(q == 0)
  | JVal.jstr s => !(s == "")
  | JVal.jarr _ => true
  | JVal.jobj _ => true

/-- JavaScript `typeof extractedData === 'object'` on a parsed JSON value:
true for null, arrays and objects — `JSON.parse` never yields undefined or
a function. -/
def jvTypeofIsObj : JVal → Bool
  | JVal.jnull => true
  | JVal.jarr _ => true
  | JVal.jobj _ => true
  | _ => false

/-- The validation `!(!extractedData || typeof extractedData !== 'object')`
applied by `extractBillData` and by the HTTP handler: the value is truthy
and of typeof object. -/
def validExtractedData (v : JVal) : Bool := jvTruthy v && jvTypeofIsObj v

/-- Successful return value of `extractBillData`. -/
structure SingleResult where
  data : JVal
  usage : NormUsage
  pricing : Pricing

/-- `extractBillData(fileData, model)`: read and text-extract the PDF, call
the API, reconcile the reply, validate that it is a truthy object, delete
the scratch file, price, and return; any failure propagates out of the
function (the outer catch only logs and rethrows), leaving the scratch
file untouched on those paths. -/
def extractBillData (env : ModelEnv) (model : String) (s0 : FsState) :
    Except String SingleResult × FsState :=
  match env.readParse with
  | Except.error e => (Except.error e, s0)
  | Except.ok _text =>
    match env.api model with
    | Except.error e =>
      (Except.error ("Failed to process with model " ++ model ++ ": " ++ e), s0)
    | Except.ok resp =>
      match reconcile singleParseMsg resp.output_text with
      | Except.error e => (Except.error e, s0)
      | Except.ok extractedData =>
        if validExtractedData extractedData then
          match fsRemoveAwait s0 with
          | Except.error e => (Except.error e, s0)
          | Except.ok s1 =>
            match calculatePrice model (JsUsage.objv resp.usage) with
            | Except.error e => (Except.error e, s1)
            | Except.ok pricing =>
              (Except.ok { data := extractedData, usage := normUsage resp.usage,
                           pricing := pricing }, s1)
        else (Except.error "Invalid data format received from OpenAI", s0)

/-- One element of the multi-model result list. Wall-clock timing fields
are not modelled. -/
structure ModelEntry where
  model : String
  data : Option JVal
  usage : Option NormUsage
  pricing : Option Pricing
  error : Option String

/-- The entry pushed when one model's pipeline fails: error set, data,
usage and pricing null. -/
def failEntry (model msg : String) : ModelEntry :=
  ⟨model, none, none, none, some msg⟩

/-- One iteration of the multi-model loop: API call, reconciliation (no
object-validation step exists in this loop), pricing; any failure is caught
and becomes a `failEntry`. -/
def runModelOnce (env : ModelEnv) (model : String) : ModelEntry :=
  match env.api model with
  | Except.error e =>
    failEntry model ("Failed to process with model " ++ model ++ ": " ++ e)
  | Except.ok resp =>
    match reconcile (modelParseMsg model) resp.output_text with
    | Except.error e => failEntry model e
    | Except.ok extractedData =>
      match calculatePrice model (JsUsage.objv resp.usage) with
      | Except.error e => failEntry model e
      | Except.ok pricing =>
        { model := model, data := some extractedData,
          usage := some (normUsage resp.usage),
          pricing := some pricing,
          error := none }

/-- Whether one model's pipeline fails: the API call errored, the reply
could not be reconciled into JSON, or the pricing computation threw. -/
def modelFails (env : ModelEnv) (model : String) : Bool :=
  match env.api model with
  | Except.error _ => true
  | Except.ok resp =>
    match reconcile (modelParseMsg model) resp.output_text with
    | Except.error _ => true
    | Except.ok _ =>
      match calculatePrice model (JsUsage.objv resp.usage) with
      | Except.error _ => true
      | Except.ok _ => false

/-- The result list the multi-model loop builds: one entry per configured
model, in order. -/
def allModelsResults (env : ModelEnv) (models : List String) : List ModelEntry :=
  models.map (runModelOnce env)

/-- The model list the service iterates. -/
def AVAILABLE_MODELS : List String :=
  ["gpt-4.5-preview", "gpt-4o", "gpt-4o-mini", "o3-mini", "o1", "o1-pro"]

/-- `extractBillDataWithAllModels(fileData)`, generalized over the iterated
model list (the source fixes it to `AVAILABLE_MODELS`): text-extract once,
run every model's pipeline sequentially with per-model failures recorded in
the list, then delete the scratch file; the outer catch re-attempts the
deletion with its own failure swallowed and rethrows the original error. -/
def extractBillDataWithAllModels (env : ModelEnv) (models : List String)
    (s0 : FsState) : Except String (List ModelEntry) × FsState :=
  match env.readParse with
  | Except.error e => (Except.error e, fsRemoveSwallow s0)
  | Except.ok _text =>
    let results := allModelsResults env models
    match fsRemoveAwait s0 with
    | Except.error e => (Except.error e, fsRemoveSwallow s0)
    | Except.ok s1 => (Except.ok results, s1)

/-- The uploaded file's request metadata used by the handler. -/
structure FileMeta where
  path : String
  originalname : String

/-- Response body shapes of the single-model endpoint. -/
inductive RespBody where
  | success (data : JVal) (usage : NormUsage) (pricing : Pricing)
  | errorBody (message : String)

/-- Whether a response body is the error envelope. -/
def RespBody.isErrorEnvelope : RespBody → Bool
  | RespBody.errorBody _ => true
  | _ => false

/-- `result.data.Filename = originalname`: overwrite the Filename key of an
object in place, or append it; property assignment on a non-object parse
result is not representable and leaves the value unchanged. -/
def setFilenameField (v : JVal) (name : String) : JVal :=
  match v with
  | JVal.jobj fields =>
    if fields.any (fun kv => kv.1 = "Filename") then
      JVal.jobj (fields.map (fun kv =>
        if kv.1 = "Filename" then (kv.1, JVal.jstr name) else kv))
    else JVal.jobj (fields ++ [("Filename", JVal.jstr name)])
  | other => other

/-- `processPdf(req, res)`: 400 without a file; on a service return, 200
with the success envelope when `result.data` is a truthy object, otherwise
422 with the error envelope; on a thrown service error, 500 with the error
envelope carrying `error.message || 'Failed to process PDF'`. Returns the
HTTP status and the body. -/
def processPdf (file : Option FileMeta) (svc : Except String SingleResult) :
    Nat × RespBody :=
  match file with
  | none => (400, RespBody.errorBody "No PDF file provided")
  | some f =>
    match svc with
    | Except.error e =>
      (500, RespBody.errorBody (if e = "" then "Failed to process PDF" else e))
    | Except.ok result =>
      if validExtractedData result.data then
        (200, RespBody.success (setFilenameField result.data f.originalname)
          result.usage result.pricing)
      else (422, RespBody.errorBody "Failed to extract data from the PDF")

/-- A usage object with both counts and a total, used by test fixtures. -/
def usageSample : UsageRaw := ⟨some 10, none, some 5, none, some 15⟩

/-- An environment whose effects all succeed and whose API reply text is
`content`. -/
def mkEnv (content : String) : ModelEnv :=
  ⟨Except.ok "bill text", fun _ => Except.ok ⟨content, usageSample⟩⟩

/-- The reply delivered raw: exactly one JSON object. -/
def objReply : String := "\x7b\"A\":\"1\"\x7d"

/-- The same reply fenced in a json-tagged code block. -/
def fencedReply : String := "```json\n\x7b\"A\":\"1\"\x7d\n```"

/-- The same reply embedded in prose around the single brace span. -/
def prosedReply : String :=
  "Here is the extracted bill data: \x7b\"A\":\"1\"\x7d Hope that helps."

/-- The object both forms of the reply denote. -/
def objReplyVal : JVal := JVal.jobj [("A", JVal.jstr "1")]

/-- A reply that is valid JSON but denotes an array. -/
def arrReply : String := "[1,2,3]"

/-- A reply from which no JSON can be recovered: no parse, no fence, no
brace span. -/
def noJsonReply : String := "Sorry - the bill text was unreadable."

/-- A three-model environment in which exactly the second model's API call
fails. -/
def env3 : ModelEnv :=
  ⟨Except.ok "bill text", fun m =>
    if m = "model-b" then Except.error "boom"
    else Except.ok ⟨objReply, usageSample⟩⟩

/-- The three models iterated by the `env3` fixtures. -/
def models3 : List String := ["model-a", "model-b", "model-c"]

/-- Fallback entry for out-of-range list reads in theorem statements. -/
def noEntry : ModelEntry := ⟨"", none, none, none, none⟩

/-- An environment whose file-read / PDF-text-extraction step fails. -/
def envReadFail : ModelEnv :=
  ⟨Except.error "pdf-parse failed", fun _ => Except.ok ⟨objReply, usageSample⟩⟩

/-- Request file metadata fixture. -/
def fileMeta0 : FileMeta := ⟨"/uploads/12345.pdf", "bill.pdf"⟩

/-- A service result whose data is not a usable object (null is falsy). -/
def nullDataResult : SingleResult :=
  ⟨JVal.jnull, normUsage usageSample, naPricing "gpt-4o"⟩

/-- Whether an Except is a success. -/
def exceptIsOk {ε α : Type} : Except ε α → Bool
  | Except.ok _ => true
  | Except.error _ => false

/-- Reading a mapped list at an in-range index is the function applied to
the source list's element at that index. -/
theorem getD_map_of_lt {α β : Type} (f : α → β) (l : List α) (i : Nat)
    (d : α) (d2 : β) (h : i < l.length) :
    (l.map f).getD i d2 = f (l.getD i d) := by
  induction l generalizing i with
  | nil => simp at h
  | cons a t ih =>
    cases i with
    | zero => rfl
    | succ n =>
      have hn : n < t.length := Nat.lt_of_succ_lt_succ (by simpa using h)
      simpa [List.getD_cons_succ] using ih n hn

/-- C2: the reply text of a single JSON object reconciles to the same
parsed object whether delivered raw, fenced in a json-tagged code block, or
embedded with leading and trailing prose around the single brace span; the
fallback order is direct parse, then fenced-block interior, then
brace-delimited span. -/
theorem c2_reconcile_roundtrip :
    reconcile singleParseMsg objReply = Except.ok objReplyVal ∧
    reconcile singleParseMsg fencedReply = Except.ok objReplyVal ∧
    reconcile singleParseMsg prosedReply = Except.ok objReplyVal :=
  ⟨rfl, rfl, rfl⟩

/-- C9: usage of one million prompt tokens and zero completion tokens on
gpt-4o (input rate 2.50 dollars per million) prices to an input cost of
exactly the string 2.500000 dollars. -/
theorem c9_input_cost_exact :
    (calculatePrice "gpt-4o"
        (JsUsage.objv ⟨some 1000000, none, some 0, none, none⟩)).map
      (fun p => p.costs.inputCost) = Except.ok "$2.500000" := by
  have hm : modelPricesOf "gpt-4o" = JsPropValue.ratesVal ⟨5 / 2, 5 / 4, 10⟩ := rfl
  have hrate : (((1000000 : Nat) : ℚ) / 1000000 * (5 / 2 : ℚ)) = 5 / 2 := by
    norm_num
  have hfloor : Int.floor ((5 / 2 : ℚ) * (10 : ℚ) ^ (6 : Nat) + 1 / 2) =
      (2500000 : Int) := by
    rw [Int.floor_eq_iff]
    norm_num
  have hfix : toFixed (5 / 2 : ℚ) 6 = "2.500000" := by
    unfold toFixed ratRoundScaled
    rw [hfloor]
    rfl
  unfold calculatePrice
  rw [hm]
  norm_num [jsTruthyUsage, typeofIsObj, usageFieldsOf, jsOrNum, hrate, hfix,
    Except.map]
  rfl

/-- C1 counterexample: a reply that is valid JSON denoting an array is NOT
rejected as invalid data format — the single-model pipeline returns the
array as extracted data, because a JavaScript array satisfies
`typeof extractedData === 'object'`. -/
theorem c1_array_counterexample :
    ((extractBillData (mkEnv arrReply) "o3-mini" ⟨true, false⟩).1).map
        (fun r => r.data) =
      Except.ok (JVal.jarr [JVal.jnum 1, JVal.jnum 2, JVal.jnum 3]) := rfl

/-- C1 amended: for every model reply that parses as a JSON array, the
response reconciliation in extractBillData accepts the array and returns it
as the extracted data (the invalid-data-format guard only rejects null and
non-object scalars, since arrays pass the typeof check). -/
theorem c1_array_accepted (content : String) (xs : List JVal) (s0 : FsState)
    (hrm : s0.removeFails = false)
    (h : jsonParse content = some (JVal.jarr xs)) :
    ((extractBillData (mkEnv content) "o3-mini" s0).1).map (fun r => r.data) =
      Except.ok (JVal.jarr xs) := by
  obtain ⟨p, hcp⟩ : ∃ p, calculatePrice "o3-mini" (JsUsage.objv usageSample) =
      Except.ok p := ⟨_, rfl⟩
  unfold extractBillData mkEnv reconcile
  simp [h, validExtractedData, jvTruthy, jvTypeofIsObj, fsRemoveAwait, hrm,
    hcp, Except.map]

/-- C1 amended, witnessed at the reply [1,2,3]. -/
theorem c1_array_accepted_witness :
    (⟨true, false⟩ : FsState).removeFails = false ∧
    jsonParse arrReply = some (JVal.jarr [JVal.jnum 1, JVal.jnum 2, JVal.jnum 3]) ∧
    ((extractBillData (mkEnv arrReply) "o3-mini" ⟨true, false⟩).1).map
        (fun r => r.data) =
      Except.ok (JVal.jarr [JVal.jnum 1, JVal.jnum 2, JVal.jnum 3]) :=
  ⟨rfl, rfl, c1_array_accepted arrReply _ ⟨true, false⟩ rfl rfl⟩

/-- C4 counterexample: when the single-model pipeline throws (here: the
reply cannot be reconciled into JSON), extractBillData exits with the error
and the scratch file still exists — no cleanup is attempted on this exit
path, even though deletion never fails in this run. -/
theorem c4_cleanup_counterexample :
    (extractBillData (mkEnv noJsonReply) "o3-mini" ⟨true, false⟩).1 =
      Except.error "Failed to parse bill data from OpenAI response" ∧
    ((extractBillData (mkEnv noJsonReply) "o3-mini" ⟨true, false⟩).2).fileExists =
      true :=
  ⟨rfl, rfl⟩

/-- C4 amended: extractBillDataWithAllModels deletes the scratch file on
every exit path (both the all-models-ran path and the thrown path, where the
swallowed re-attempt preserves the primary error even when the deletion
itself fails); extractBillData deletes the scratch file only on its success
path — when its pipeline throws, no cleanup is attempted. -/
theorem c4_cleanup_amended (env envE : ModelEnv) (models : List String)
    (s0 s1 : FsState) (e : String)
    (hrm : s0.removeFails = false) (_h1 : s1.removeFails = true)
    (hre : envE.readParse = Except.error e) :
    ((extractBillDataWithAllModels env models s0).2).fileExists = false ∧
    (exceptIsOk (extractBillData env "o3-mini" s0).1 = true →
      ((extractBillData env "o3-mini" s0).2).fileExists = false) ∧
    (extractBillDataWithAllModels envE models s1).1 = Except.error e := by
  refine ⟨?_, ?_, ?_⟩
  · unfold extractBillDataWithAllModels
    cases hrp : env.readParse with
    | error e2 => simp [fsRemoveSwallow, hrm]
    | ok t => simp [fsRemoveAwait, hrm]
  · intro hok
    unfold extractBillData at hok ⊢
    cases hrp : env.readParse with
    | error e2 => simp_all [exceptIsOk]
    | ok t =>
      cases hapi : env.api "o3-mini" with
      | error e3 => simp_all [exceptIsOk]
      | ok resp =>
        cases hrec : reconcile singleParseMsg resp.output_text with
        | error e4 => simp_all [exceptIsOk]
        | ok v =>
          cases hv : validExtractedData v with
          | false => simp_all [exceptIsOk]
          | true =>
            simp_all only [fsRemoveAwait, hrm, Bool.false_eq_true, if_false]
            cases calculatePrice "o3-mini" (JsUsage.objv resp.usage) <;>
              simp_all [exceptIsOk]
  · unfold extractBillDataWithAllModels
    rw [hre]

/-- C4 amended, witnessed: a fully succeeding run of both functions with a
working remove, and a throwing multi-model run whose remove also fails. -/
theorem c4_cleanup_amended_witness :
    (⟨true, false⟩ : FsState).removeFails = false ∧
    (⟨true, true⟩ : FsState).removeFails = true ∧
    envReadFail.readParse = Except.error "pdf-parse failed" ∧
    ((extractBillDataWithAllModels (mkEnv objReply) models3 ⟨true, false⟩).2).fileExists = false ∧
    ((extractBillData (mkEnv objReply) "o3-mini" ⟨true, false⟩).2).fileExists = false ∧
    (extractBillDataWithAllModels envReadFail models3 ⟨true, true⟩).1 =
      Except.error "pdf-parse failed" := by
  have h := c4_cleanup_amended (mkEnv objReply) envReadFail models3
    ⟨true, false⟩ ⟨true, true⟩ "pdf-parse failed" rfl rfl rfl
  exact ⟨rfl, rfl, rfl, h.1, h.2.1 rfl, h.2.2⟩

/-- C5 counterexample: 'toString' is not a key of the price table, yet
calculatePrice neither falls back to gpt-4o's rates nor returns a pricing
result — prices['toString'] yields the truthy inherited
Object.prototype.toString, the fallback is skipped, and the rate
formatting throws a TypeError on the undefined modelPrices.input. -/
theorem c5_proto_key_counterexample :
    prices.lookup "toString" = none ∧
    calculatePrice "toString" (JsUsage.objv usageSample) =
      Except.error "TypeError: modelPrices.input is undefined" :=
  ⟨rfl, rfl⟩

/-- C5 amended: a modelId absent from the price table whose name is not an
inherited Object.prototype property is priced with the default model's
(gpt-4o's) rates — same rates, same costs, no failure, the result echoing
the requested modelId; a modelId naming an inherited prototype member
instead skips the fallback and throws. -/
theorem c5_unknown_model_fallback (model : String) (u : JsUsage)
    (h : prices.lookup model = none)
    (hp : objectProtoKeys.contains model = false) :
    exceptIsOk (calculatePrice model u) = true ∧
    (calculatePrice model u).map (fun p => p.rates) =
      (calculatePrice "gpt-4o" u).map (fun p => p.rates) ∧
    (calculatePrice model u).map (fun p => p.costs) =
      (calculatePrice "gpt-4o" u).map (fun p => p.costs) ∧
    (calculatePrice model u).map (fun p => p.model) = Except.ok model := by
  have hm : modelPricesOf model = JsPropValue.ratesVal ⟨5 / 2, 5 / 4, 10⟩ := by
    unfold modelPricesOf pricesGet
    rw [h, hp]
    rfl
  have hm4 : modelPricesOf "gpt-4o" = JsPropValue.ratesVal ⟨5 / 2, 5 / 4, 10⟩ := rfl
  unfold calculatePrice
  rw [hm, hm4]
  cases hg : (jsTruthyUsage u && typeofIsObj u) with
  | false => simp [naPricing, exceptIsOk, Except.map]
  | true => simp [exceptIsOk, Except.map]

/-- C5 amended, witnessed at a modelId outside both the table and the
prototype chain. -/
theorem c5_unknown_model_fallback_witness :
    prices.lookup "claude-3-opus" = none ∧
    objectProtoKeys.contains "claude-3-opus" = false ∧
    exceptIsOk (calculatePrice "claude-3-opus" (JsUsage.objv usageSample)) = true ∧
    (calculatePrice "claude-3-opus" (JsUsage.objv usageSample)).map
        (fun p => p.rates) =
      (calculatePrice "gpt-4o" (JsUsage.objv usageSample)).map (fun p => p.rates) ∧
    (calculatePrice "claude-3-opus" (JsUsage.objv usageSample)).map
        (fun p => p.costs) =
      (calculatePrice "gpt-4o" (JsUsage.objv usageSample)).map (fun p => p.costs) ∧
    (calculatePrice "claude-3-opus" (JsUsage.objv usageSample)).map
        (fun p => p.model) = Except.ok "claude-3-opus" := by
  have h := c5_unknown_model_fallback "claude-3-opus" (JsUsage.objv usageSample)
    rfl rfl
  exact ⟨rfl, rfl, h.1, h.2.1, h.2.2.1, h.2.2.2⟩

/-- C6: a malformed usage argument — null, undefined, or any value that is
not an object — makes calculatePrice return the explicit pricing result all
of whose rate and cost fields are the string N/A; it does not throw. -/
theorem c6_malformed_usage (model : String) (u : JsUsage)
    (h : u = JsUsage.null ∨ u = JsUsage.undef ∨ typeofIsObj u = false) :
    calculatePrice model u = Except.ok (naPricing model) ∧
    (naPricing model).rates.inputRate = "N/A" ∧
    (naPricing model).rates.cachedInputRate = "N/A" ∧
    (naPricing model).rates.outputRate = "N/A" ∧
    (naPricing model).costs.inputCost = "N/A" ∧
    (naPricing model).costs.outputCost = "N/A" ∧
    (naPricing model).costs.totalCost = "N/A" := by
  have hguard : (jsTruthyUsage u && typeofIsObj u) = false := by
    rcases h with h | h | h
    · rw [h]; rfl
    · rw [h]; rfl
    · rw [h]; simp
  have hres : calculatePrice model u = Except.ok (naPricing model) := by
    unfold calculatePrice
    rw [hguard]
    rfl
  exact ⟨hres, rfl, rfl, rfl, rfl, rfl, rfl⟩

/-- C6 witnessed at usage null. -/
theorem c6_malformed_usage_witness :
    ((JsUsage.null = JsUsage.null ∨ JsUsage.null = JsUsage.undef ∨
        typeofIsObj JsUsage.null = false) ∧
      calculatePrice "gpt-4o" JsUsage.null = Except.ok (naPricing "gpt-4o")) ∧
    (naPricing "gpt-4o").costs.totalCost = "N/A" := by
  have h := c6_malformed_usage "gpt-4o" JsUsage.null (Or.inl rfl)
  exact ⟨⟨Or.inl rfl, h.1⟩, h.2.2.2.2.2.2⟩

/-- A failing model's loop iteration produces exactly a failure entry. -/
theorem runModelOnce_of_fail (env : ModelEnv) (m : String)
    (hf : modelFails env m = true) :
    ∃ msg, runModelOnce env m = failEntry m msg := by
  rcases hapi : env.api m with e | resp
  · exact ⟨"Failed to process with model " ++ m ++ ": " ++ e,
      by simp [runModelOnce, hapi]⟩
  · rcases hrec : reconcile (modelParseMsg m) resp.output_text with e | v
    · exact ⟨e, by simp [runModelOnce, hapi, hrec]⟩
    · rcases hcp : calculatePrice m (JsUsage.objv resp.usage) with e | p
      · exact ⟨e, by simp [runModelOnce, hapi, hrec, hcp]⟩
      · exfalso
        simp [modelFails, hapi, hrec, hcp] at hf

/-- A succeeding model's loop iteration produces exactly a complete entry. -/
theorem runModelOnce_of_ok (env : ModelEnv) (m : String)
    (hf : modelFails env m = false) :
    ∃ d u p, runModelOnce env m =
      { model := m, data := some d, usage := some u, pricing := some p,
        error := none } := by
  rcases hapi : env.api m with e | resp
  · exfalso
    simp [modelFails, hapi] at hf
  · rcases hrec : reconcile (modelParseMsg m) resp.output_text with e | v
    · exfalso
      simp [modelFails, hapi, hrec] at hf
    · rcases hcp : calculatePrice m (JsUsage.objv resp.usage) with e | p
      · exfalso
        simp [modelFails, hapi, hrec, hcp] at hf
      · exact ⟨v, normUsage resp.usage, p,
          by simp [runModelOnce, hapi, hrec, hcp]⟩

/-- C3: in multi-model mode the result list always has one entry per
configured model, in model order; a model whose pipeline fails contributes
an entry with error set and data, usage and pricing null, while a model
whose pipeline succeeds contributes a complete entry — no failure aborts or
drops the other models' entries. -/
theorem c3_partial_failure_isolation (env : ModelEnv) (models : List String)
    (s0 : FsState) (t : String) (i : Nat)
    (hrp : env.readParse = Except.ok t) (hrm : s0.removeFails = false)
    (h : i < models.length) :
    (extractBillDataWithAllModels env models s0).1 =
      Except.ok (allModelsResults env models) ∧
    (allModelsResults env models).length = models.length ∧
    ((allModelsResults env models).getD i noEntry).model = models.getD i "" ∧
    (modelFails env (models.getD i "") = true →
      ((allModelsResults env models).getD i noEntry).error.isSome = true ∧
      ((allModelsResults env models).getD i noEntry).data = none ∧
      ((allModelsResults env models).getD i noEntry).usage = none ∧
      ((allModelsResults env models).getD i noEntry).pricing = none) ∧
    (modelFails env (models.getD i "") = false →
      ((allModelsResults env models).getD i noEntry).error = none ∧
      ((allModelsResults env models).getD i noEntry).data.isSome = true ∧
      ((allModelsResults env models).getD i noEntry).usage.isSome = true ∧
      ((allModelsResults env models).getD i noEntry).pricing.isSome = true) := by
  have key : (allModelsResults env models).getD i noEntry =
      runModelOnce env (models.getD i "") :=
    getD_map_of_lt (runModelOnce env) models i "" noEntry h
  refine ⟨?_, ?_, ?_, ?_, ?_⟩
  · unfold extractBillDataWithAllModels
    rw [hrp]
    simp [fsRemoveAwait, hrm]
  · simp [allModelsResults]
  · rw [key]
    cases hb : modelFails env (models.getD i "") with
    | true =>
      obtain ⟨msg, hm⟩ := runModelOnce_of_fail env (models.getD i "") hb
      rw [hm]
      rfl
    | false =>
      obtain ⟨d, u, p, hm⟩ := runModelOnce_of_ok env (models.getD i "") hb
      rw [hm]
  · intro hf
    rw [key]
    obtain ⟨msg, hm⟩ := runModelOnce_of_fail env (models.getD i "") hf
    rw [hm]
    exact ⟨rfl, rfl, rfl, rfl⟩
  · intro hf
    rw [key]
    obtain ⟨d, u, p, hm⟩ := runModelOnce_of_ok env (models.getD i "") hf
    rw [hm]
    exact ⟨rfl, rfl, rfl, rfl⟩

/-- C3 witnessed on a three-model run whose second model fails. -/
theorem c3_partial_failure_witness :
    env3.readParse = Except.ok "bill text" ∧
    (⟨true, false⟩ : FsState).removeFails = false ∧
    1 < models3.length ∧
    modelFails env3 (models3.getD 1 "") = true ∧
    modelFails env3 (models3.getD 0 "") = false ∧
    (extractBillDataWithAllModels env3 models3 ⟨true, false⟩).1 =
      Except.ok (allModelsResults env3 models3) ∧
    (allModelsResults env3 models3).length = models3.length ∧
    ((allModelsResults env3 models3).getD 1 noEntry).error.isSome = true ∧
    ((allModelsResults env3 models3).getD 1 noEntry).data = none ∧
    ((allModelsResults env3 models3).getD 1 noEntry).usage = none ∧
    ((allModelsResults env3 models3).getD 1 noEntry).pricing = none ∧
    ((allModelsResults env3 models3).getD 0 noEntry).error = none ∧
    ((allModelsResults env3 models3).getD 0 noEntry).data.isSome = true := by
  have h1 := c3_partial_failure_isolation env3 models3 ⟨true, false⟩
    "bill text" 1 rfl rfl (by decide)
  have h0 := c3_partial_failure_isolation env3 models3 ⟨true, false⟩
    "bill text" 0 rfl rfl (by decide)
  have hfail : modelFails env3 (models3.getD 1 "") = true := rfl
  have hokm : modelFails env3 (models3.getD 0 "") = false := rfl
  exact ⟨rfl, rfl, by decide, hfail, hokm, h1.1, h1.2.1,
    (h1.2.2.2.1 hfail).1, (h1.2.2.2.1 hfail).2.1, (h1.2.2.2.1 hfail).2.2.1,
    (h1.2.2.2.1 hfail).2.2.2, (h0.2.2.2.2 hokm).1, (h0.2.2.2.2 hokm).2.1⟩

/-- C7: when the API's usage object has no total_tokens field, the
normalized usage's total equals the normalized prompt tokens plus the
normalized completion tokens (prompt from prompt_tokens or input_tokens,
completion from completion_tokens or output_tokens). -/
theorem c7_total_is_sum (u : UsageRaw) (h : u.total_tokens = none) :
    (normUsage u).total_tokens =
      (normUsage u).prompt_tokens + (normUsage u).completion_tokens := by
  unfold normUsage
  rw [h]
  simp [jsOrNum]

/-- C7 witnessed on a usage object carrying only the two counters. -/
theorem c7_total_is_sum_witness :
    (⟨some 7, none, some 3, none, none⟩ : UsageRaw).total_tokens = none ∧
    (normUsage ⟨some 7, none, some 3, none, none⟩).total_tokens =
      (normUsage ⟨some 7, none, some 3, none, none⟩).prompt_tokens +
        (normUsage ⟨some 7, none, some 3, none, none⟩).completion_tokens ∧
    (normUsage ⟨some 7, none, some 3, none, none⟩).total_tokens = 10 :=
  ⟨rfl, c7_total_is_sum ⟨some 7, none, some 3, none, none⟩ rfl, rfl⟩

/-- C8: the single-model HTTP handler answers 422 with the error envelope
when the service returns a result whose data is not a usable object, and
500 with the error envelope when the service throws; the two error outcomes
are distinguished exactly so. -/
theorem c8_status_codes (f : FileMeta) (r : SingleResult) (e : String)
    (hr : validExtractedData r.data = false) :
    processPdf (some f) (Except.ok r) =
      (422, RespBody.errorBody "Failed to extract data from the PDF") ∧
    (processPdf (some f) (Except.error e)).1 = 500 ∧
    RespBody.isErrorEnvelope (processPdf (some f) (Except.error e)).2 = true := by
  refine ⟨?_, ?_, ?_⟩
  · simp [processPdf, hr]
  · rfl
  · rfl

/-- C8 witnessed on a null-data result and a thrown error. -/
theorem c8_status_codes_witness :
    validExtractedData nullDataResult.data = false ∧
    processPdf (some fileMeta0) (Except.ok nullDataResult) =
      (422, RespBody.errorBody "Failed to extract data from the PDF") ∧
    (processPdf (some fileMeta0) (Except.error "boom")).1 = 500 ∧
    RespBody.isErrorEnvelope
      (processPdf (some fileMeta0) (Except.error "boom")).2 = true := by
  have h := c8_status_codes fileMeta0 nullDataResult "boom" rfl
  exact ⟨rfl, h.1, h.2.1, h.2.2⟩

/-- C10: the normalization treats a token count of zero as absent — a
present total_tokens equal to 0 is replaced by the sum of the two
normalized counts, and a prompt_tokens of 0 falls through to the
input_tokens field. -/
theorem c10_zero_treated_as_absent (u v : UsageRaw) (p c n : Nat)
    (h1 : u.total_tokens = some 0) (h2 : u.prompt_tokens = some p)
    (h3 : 0 < p) (h4 : u.completion_tokens = some c) (h5 : 0 < c)
    (h6 : v.prompt_tokens = some 0) (h7 : v.input_tokens = some n) :
    (normUsage u).total_tokens =
      (normUsage u).prompt_tokens + (normUsage u).completion_tokens ∧
    (normUsage u).total_tokens = p + c ∧
    (normUsage v).prompt_tokens = n := by
  have hp : p ≠ 0 := Nat.pos_iff_ne_zero.mp h3
  have hc : c ≠ 0 := Nat.pos_iff_ne_zero.mp h5
  unfold normUsage
  refine ⟨?_, ?_, ?_⟩
  · rw [h1]; simp [jsOrNum]
  · rw [h1, h2, h4]; simp [jsOrNum, hp, hc]
  · rw [h6, h7]
    simp only [jsOrNum]
    rcases Nat.eq_zero_or_pos n with hn | hn
    · simp [hn]
    · simp [Nat.pos_iff_ne_zero.mp hn]

/-- C10 witnessed on a zero total and a zero prompt_tokens beside
input_tokens. -/
theorem c10_zero_treated_as_absent_witness :
    (⟨some 4, none, some 6, none, some 0⟩ : UsageRaw).total_tokens = some 0 ∧
    (⟨some 0, some 9, none, none, none⟩ : UsageRaw).prompt_tokens = some 0 ∧
    (normUsage ⟨some 4, none, some 6, none, some 0⟩).total_tokens = 10 ∧
    (normUsage ⟨some 0, some 9, none, none, none⟩).prompt_tokens = 9 := by
  have h := c10_zero_treated_as_absent ⟨some 4, none, some 6, none, some 0⟩
    ⟨some 0, some 9, none, none, none⟩ 4 6 9 rfl rfl (by decide) rfl (by decide)
    rfl rfl
  exact ⟨rfl, rfl, h.2.1, h.2.2⟩
